import Mathlib

/-
Verification of the PR-summary evaluation harness (evals/evaluation.py and
evals/prompt_variations.py), shallowly embedded in Lean.  Python strings are
modelled as Lean `String` (lists of characters), Python floats as `ℚ`
(the score arithmetic in the source is exact at the breakpoints used),
fallible operations as `Option`/`Except`.  Scanning loops that consume a
variable number of characters per step are written with an explicit fuel
argument equal to the string length, so that all definitions compute.
-/

/-- The character `LEFT CURLY BRACKET`. -/
def lbrace : Char := Char.ofNat 123

/-- The character `RIGHT CURLY BRACKET`. -/
def rbrace : Char := Char.ofNat 125

/-- The character `APOSTROPHE` (used by Python list repr). -/
def squoteChar : Char := Char.ofNat 39

/-- Python `needle in hay` substring test, on character lists. -/
def containsSubAux (needle : List Char) : List Char → Bool
  | [] => needle.isEmpty
  | c :: rest => List.isPrefixOf needle (c :: rest) || containsSubAux needle rest

/-- Python `needle in hay` substring test on strings. -/
def pyContains (hay needle : String) : Bool :=
  containsSubAux needle.data hay.data

/-- Python `s.count(sub)` for nonempty `sub`: number of non-overlapping
occurrences, scanning left to right; `fuel` bounds the recursion and is
instantiated with the length of the scanned list. -/
def countSubAux (sub : List Char) : Nat → List Char → Nat
  | _, [] => 0
  | 0, _ :: _ => 0
  | fuel + 1, c :: rest =>
    if List.isPrefixOf sub (c :: rest) then
      countSubAux sub fuel (List.drop (sub.length - 1) rest) + 1
    else
      countSubAux sub fuel rest

/-- Python `s.count(sub)` (for nonempty `sub`). -/
def pyCount (s sub : String) : Nat :=
  countSubAux sub.data s.data.length s.data

/-- Number of occurrences of a single character in a string. -/
def countChar (c : Char) (s : String) : Nat :=
  s.data.count c

/-- Python `s.lower()` (ASCII case folding, as used by the source). -/
def pyLower (s : String) : String :=
  String.mk (s.data.map Char.toLower)

/-- Helper for Python `s.split()`: maximal runs of non-whitespace characters.
The first argument is the reversed current run. -/
def pyWordsAux : List Char → List Char → List (List Char)
  | acc, [] => if acc.isEmpty then [] else [acc.reverse]
  | acc, c :: rest =>
    if c.isWhitespace then
      if acc.isEmpty then pyWordsAux [] rest
      else acc.reverse :: pyWordsAux [] rest
    else
      pyWordsAux (c :: acc) rest

/-- Python `s.split()` with no separator: whitespace-delimited words,
empty strings discarded. -/
def pyWords (s : String) : List String :=
  (pyWordsAux [] s.data).map String.mk

/-- Python `s.strip()`: remove leading and trailing whitespace. -/
def pyStrip (s : String) : String :=
  String.mk (((s.data.dropWhile Char.isWhitespace).reverse.dropWhile
    Char.isWhitespace).reverse)

/-- Python `s.find(c)` for a single character, as an optional index. -/
def findIdx : Char → List Char → Option Nat
  | _, [] => none
  | c, a :: rest => if a = c then some 0 else (findIdx c rest).map (· + 1)

/-- Python `s.rfind(c)` for a single character, as an optional index. -/
def rfindIdx (c : Char) (l : List Char) : Option Nat :=
  (findIdx c l.reverse).map (fun j => l.length - 1 - j)

/-- Python `s.split(sep)` for a single-character separator (keeps empty
pieces, result is always nonempty). -/
def splitOnChar (sep : Char) : List Char → List (List Char)
  | [] => [[]]
  | c :: rest =>
    match splitOnChar sep rest with
    | [] => [[]]
    | g :: gs => if c = sep then [] :: g :: gs else (c :: g) :: gs

/-- Python list repr of a list of strings, e.g. `['default', 'concise']`. -/
def pyListRepr (xs : List String) : String :=
  "[" ++ String.intercalate ", "
    (xs.map (fun s => String.mk [squoteChar] ++ s ++ String.mk [squoteChar]))
  ++ "]"

/-- Embeds `PRTestCase` (evals/evaluation.py): the dataclass holding one
historical pull request used for evaluation. -/
structure PRTestCase where
  id : String
  pr_number : Int
  title : String
  body : String
  diff : String
  author : String
  repo : String
  labels : List String
  expected_technical : Option String := none
  expected_marketing : Option String := none
  difficulty : String := "medium"
  category : String := "general"
deriving DecidableEq

/-- Embeds `PRTestCase._infer_difficulty` (evals/evaluation.py lines
194-206): difficulty from the newline count and the count of the
`diff --git` marker in the diff. -/
def infer_difficulty (diff : String) : String :=
  let lines_changed := pyCount diff "\n"
  let files_changed := pyCount diff "diff --git"
  if lines_changed > 500 || files_changed > 10 then "hard"
  else if lines_changed > 100 || files_changed > 3 then "medium"
  else "easy"

/-- Written from the claim: difficulty as a function of the two counts
(newline count, header-marker count) with the stated thresholds. -/
def difficultySpec (lines_changed files_changed : Nat) : String :=
  if lines_changed > 500 ∨ files_changed > 10 then "hard"
  else if lines_changed > 100 ∨ files_changed > 3 then "medium"
  else "easy"

/-- Embeds `PRTestCase._infer_category` (evals/evaluation.py lines 208-234):
labels are checked first against fixed vocabularies, then the lowercased
title is scanned for keywords; first match wins, default `general`. -/
def infer_category (title : String) (labels : List String) : String :=
  let t := pyLower title
  let ls := labels.map pyLower
  if ls.any (fun l => l = "bug" || l = "bugfix" || l = "fix") then "bugfix"
  else if ls.any (fun l => l = "feature" || l = "enhancement") then "feature"
  else if ls.any (fun l => l = "refactor" || l = "refactoring") then "refactor"
  else if ls.any (fun l => l = "docs" || l = "documentation") then "docs"
  else if ["fix", "bug", "error", "issue"].any (fun w => pyContains t w) then
    "bugfix"
  else if ["add", "feature", "implement", "new"].any (fun w => pyContains t w)
    then "feature"
  else if ["refactor", "cleanup", "improve"].any (fun w => pyContains t w) then
    "refactor"
  else if ["doc", "readme", "comment"].any (fun w => pyContains t w) then
    "docs"
  else "general"

/-- Written from the claim: the label pass, tried before any look at the
title, in the fixed category order. -/
def labelCategory (labels : List String) : Option String :=
  let ls := labels.map pyLower
  if ls.any (fun l => l = "bug" || l = "bugfix" || l = "fix") then
    some "bugfix"
  else if ls.any (fun l => l = "feature" || l = "enhancement") then
    some "feature"
  else if ls.any (fun l => l = "refactor" || l = "refactoring") then
    some "refactor"
  else if ls.any (fun l => l = "docs" || l = "documentation") then some "docs"
  else none

/-- Written from the claim: the title keyword pass, scanned only when no
label matched, in the same category order with the bugfix keywords first. -/
def titleCategory (title : String) : Option String :=
  let t := pyLower title
  if ["fix", "bug", "error", "issue"].any (fun w => pyContains t w) then
    some "bugfix"
  else if ["add", "feature", "implement", "new"].any (fun w => pyContains t w)
    then some "feature"
  else if ["refactor", "cleanup", "improve"].any (fun w => pyContains t w) then
    some "refactor"
  else if ["doc", "readme", "comment"].any (fun w => pyContains t w) then
    some "docs"
  else none

/-- Written from the claim: category classification as label pass first,
title pass only on no label match, `general` otherwise. -/
def categorySpec (title : String) (labels : List String) : String :=
  match labelCategory labels with
  | some c => c
  | none =>
    match titleCategory title with
    | some c => c
    | none => "general"

/-- Embeds `AutomatedEvaluator._calculate_readability` (evals/evaluation.py
lines 315-334).  Scores are exact rationals; the source's float arithmetic
is exact at every breakpoint used. -/
def calculate_readability (text : String) : ℚ :=
  if text = "" then 0
  else
    let sentences := countChar '.' text + countChar '!' text + countChar '?' text
    let sentences := if sentences = 0 then 1 else sentences
    let words := (pyWords text).length
    let avg_sentence_length : ℚ := (words : ℚ) / (sentences : ℚ)
    if 10 ≤ avg_sentence_length ∧ avg_sentence_length ≤ 25 then 1
    else if avg_sentence_length < 10 then 0.8
    else max 0.2 (1 - (avg_sentence_length - 25) / 50)

/-- Written from the claim: the readability formula as stated, with no
special case for the empty string. -/
def readabilitySpec (text : String) : ℚ :=
  let sentences := countChar '.' text + countChar '!' text + countChar '?' text
  let sentences := if sentences = 0 then 1 else sentences
  let avg : ℚ := ((pyWords text).length : ℚ) / (sentences : ℚ)
  if 10 ≤ avg ∧ avg ≤ 25 then 1
  else if avg < 10 then 0.8
  else max 0.2 (1 - (avg - 25) / 50)

/-- Embeds `AutomatedEvaluator._check_factual_consistency` (evals/evaluation.py
lines 372-388).  The first penalty's guard iterates the characters of the
diff string (`for f in test_case.diff`), testing each one-character string
for the suffix `.py`, exactly as the source does. -/
def check_factual_consistency (summary : String) (tc : PRTestCase) : ℚ :=
  let score : ℚ := 1
  let score :=
    if pyContains (pyLower summary) "python"
        && !(tc.diff.data.any (fun f => List.isSuffixOf ".py".data [f])) then
      score - 0.2
    else score
  let score :=
    if pyContains (pyLower summary) "add"
        && decide (pyCount tc.diff "---" > pyCount tc.diff "+++") then
      score - 0.1
    else score
  max 0 score

/-- Written from the claim: factual consistency as 1.0 minus the two
penalties (with the per-character `.py` test, as the claim states it),
floored at 0. -/
def factualConsistencySpec (summary : String) (tc : PRTestCase) : ℚ :=
  let pythonPenalty : ℚ :=
    if pyContains (pyLower summary) "python"
        && !(tc.diff.data.any (fun f => List.isSuffixOf ".py".data [f])) then
      0.2
    else 0
  let addPenalty : ℚ :=
    if pyContains (pyLower summary) "add"
        && decide (pyCount tc.diff "---" > pyCount tc.diff "+++") then
      0.1
    else 0
  max 0 (1 - pythonPenalty - addPenalty)

/-- The literal `+++ b/` matched by the file regex in
`_calculate_diff_relevance`. -/
def fileMarker : List Char := "+++ b/".data

/-- Embeds the scan of `re.findall(r"\+\+\+ b/(.+)", diff)`: at each
position, the literal marker followed by at least one non-newline character
matches and captures the maximal non-newline run; scanning resumes after
the match, otherwise advances one character.  `fuel` is instantiated with
the length of the scanned list. -/
def findFilesAux : Nat → List Char → List (List Char)
  | _, [] => []
  | 0, _ :: _ => []
  | fuel + 1, c :: rest =>
    if List.isPrefixOf fileMarker (c :: rest) then
      let after := List.drop 5 rest
      let captured := after.takeWhile (fun ch => ch ≠ '\n')
      if captured.isEmpty then findFilesAux fuel rest
      else captured :: findFilesAux fuel (List.drop captured.length after)
    else findFilesAux fuel rest

/-- A word character for the `\w+` groups in the function regex. -/
def isWordChar (c : Char) : Bool := c.isAlpha || c.isDigit || c = '_'

/-- One alternative of `def (\w+)|function (\w+)|class (\w+)`: the literal
keyword followed by at least one word character; returns the captured
identifier and the rest of the input after the match. -/
def tryKeyword (kw : List Char) (l : List Char) :
    Option (List Char × List Char) :=
  if List.isPrefixOf kw l then
    let after := List.drop kw.length l
    let w := after.takeWhile isWordChar
    if w.isEmpty then none else some (w, List.drop w.length after)
  else none

/-- Embeds the scan of `re.findall(r"def (\w+)|function (\w+)|class (\w+)",
diff)`: alternatives tried left to right at each position, scanning resumes
after a match, otherwise advances one character. -/
def findFunctionsAux : Nat → List Char → List (List Char)
  | _, [] => []
  | 0, _ :: _ => []
  | fuel + 1, c :: rest =>
    match tryKeyword "def ".data (c :: rest) with
    | some (w, r) => w :: findFunctionsAux fuel r
    | none =>
      match tryKeyword "function ".data (c :: rest) with
      | some (w, r) => w :: findFunctionsAux fuel r
      | none =>
        match tryKeyword "class ".data (c :: rest) with
        | some (w, r) => w :: findFunctionsAux fuel r
        | none => findFunctionsAux fuel rest

/-- The tokens `_calculate_diff_relevance` extracts from a diff: the
extension of each `+++ b/` path containing a dot (added verbatim), and each
identifier following `def`/`function`/`class` (added lowercased); the set
is modelled as a deduplicated list. -/
def diffTokens (diff : String) : List String :=
  let files := findFilesAux diff.data.length diff.data
  let extTokens := files.filterMap (fun f =>
    if f.contains '.' then
      some (String.mk ((splitOnChar '.' f).getLastD []))
    else none)
  let funcTokens :=
    (findFunctionsAux diff.data.length diff.data).map
      (fun w => pyLower (String.mk w))
  (extTokens ++ funcTokens).dedup

/-- Embeds `AutomatedEvaluator._calculate_diff_relevance` (evals/evaluation.py
lines 342-370): 0 for an empty diff, else the fraction of extracted tokens
occurring in the lowercased summary, or 0.5 when no tokens were extracted. -/
def calculate_diff_relevance (summary diff : String) : ℚ :=
  if diff = "" then 0
  else
    let diff_tokens := diffTokens diff
    let summary_lower := pyLower summary
    let relevant_mentions :=
      (diff_tokens.filter (fun t => pyContains summary_lower t)).length
    if diff_tokens.isEmpty then 0.5
    else (relevant_mentions : ℚ) / (diff_tokens.length : ℚ)

/-- Written from the claim: the extracted tokens with every token
lowercased, extensions included. -/
def diffTokensLower (diff : String) : List String :=
  let files := findFilesAux diff.data.length diff.data
  let extTokens := files.filterMap (fun f =>
    if f.contains '.' then
      some (pyLower (String.mk ((splitOnChar '.' f).getLastD [])))
    else none)
  let funcTokens :=
    (findFunctionsAux diff.data.length diff.data).map
      (fun w => pyLower (String.mk w))
  (extTokens ++ funcTokens).dedup

/-- Written from the claim: the same computation but with every extracted
token lowercased, extensions included. -/
def diffRelevanceClaim (summary diff : String) : ℚ :=
  if diff = "" then 0
  else
    let diff_tokens := diffTokensLower diff
    let summary_lower := pyLower summary
    let relevant_mentions :=
      (diff_tokens.filter (fun t => pyContains summary_lower t)).length
    if diff_tokens.isEmpty then 0.5
    else (relevant_mentions : ℚ) / (diff_tokens.length : ℚ)
/-- Embeds `get_default_prompt` (evals/prompt_variations.py): the raw template text, with the four named placeholders. -/
def get_default_prompt : String :=
  "You are a technical writer creating PR summaries. \n\nAnalyze this pull request and create two summaries:\n\nPR DETAILS:\nTitle: {title}\nDescription: {body}\nDiff (first {max_diff_length} chars): {diff_excerpt}\n\nINSTRUCTIONS:\n- Create a \"technical\" summary (2-3 sentences describing what changed technically)\n- Create a \"marketing\" summary (1-2 sentences describing user benefits, or \"Minor technical improvements\" for basic fixes)\n- Do not mention author names in the summaries\n- Respond with ONLY a valid JSON object, no other text\n- Use this exact format: \x7b\x7b\"technical\": \"your technical summary\", \"marketing\": \"your marketing summary\"\x7d\x7d\n\nJSON Response:"

/-- Embeds `get_concise_prompt` (evals/prompt_variations.py): the raw template text, with the four named placeholders. -/
def get_concise_prompt : String :=
  "Analyze this PR and create two brief summaries:\n\nPR: {title}\nDescription: {body}\nChanges: {diff_excerpt}\n\nCreate:\n1. Technical summary: What changed (1-2 sentences)\n2. Marketing summary: User benefit (1 sentence)\n\nReturn only JSON: \x7b\x7b\"technical\": \"...\", \"marketing\": \"...\"\x7d\x7d"

/-- Embeds `get_detailed_prompt` (evals/prompt_variations.py): the raw template text, with the four named placeholders. -/
def get_detailed_prompt : String :=
  "You are an expert technical writer specializing in software development communication.\n\nTASK: Create professional summaries for this pull request that will be shared with both technical and business stakeholders.\n\nPR INFORMATION:\nTitle: {title}\nDescription: {body}\nCode Changes: {diff_excerpt}\n\nREQUIREMENTS:\n\nTechnical Summary:\n- 2-3 sentences maximum\n- Focus on WHAT changed (files, functions, logic)\n- Include technical details like APIs, algorithms, or architecture changes\n- Use precise technical language\n- Avoid implementation details that don't affect functionality\n\nMarketing Summary:\n- 1-2 sentences maximum\n- Focus on WHY it matters to users/business\n- Highlight user-facing benefits, performance improvements, or problem solutions\n- Use accessible language that non-technical stakeholders can understand\n- If no clear user benefit, use \"Technical improvements and maintenance\"\n\nOUTPUT FORMAT:\nRespond with ONLY valid JSON, no additional text or explanation.\nFormat: \x7b\x7b\"technical\": \"your technical summary\", \"marketing\": \"your marketing summary\"\x7d\x7d\n\nJSON Response:"

/-- Embeds `get_user_focused_prompt` (evals/prompt_variations.py): the raw template text, with the four named placeholders. -/
def get_user_focused_prompt : String :=
  "Create summaries for this PR focusing on user impact:\n\nPR: {title}\nDetails: {body}\nChanges: {diff_excerpt}\n\nFor each summary, think about:\n- Technical: What systems/components were modified?\n- Marketing: How does this improve the user experience?\n\nCreate concise summaries that emphasize user benefits and business value.\n\nReturn JSON: \x7b\x7b\"technical\": \"...\", \"marketing\": \"...\"\x7d\x7d"

/-- Embeds `get_technical_focused_prompt` (evals/prompt_variations.py): the raw template text, with the four named placeholders. -/
def get_technical_focused_prompt : String :=
  "As a senior software engineer, analyze this PR with technical precision:\n\nPR: {title}\nDescription: {body}\nDiff: {diff_excerpt}\n\nTechnical Summary Requirements:\n- Identify specific components/modules affected\n- Mention architectural patterns or design changes\n- Include performance implications if evident\n- Use exact technical terminology\n\nMarketing Summary Requirements:\n- Translate technical changes into business value\n- Focus on measurable improvements\n- Keep it factual and specific\n\nOutput JSON only: \x7b\x7b\"technical\": \"...\", \"marketing\": \"...\"\x7d\x7d"

/-- Embeds `get_structured_prompt` (evals/prompt_variations.py): the raw template text, with the four named placeholders. -/
def get_structured_prompt : String :=
  "PULL REQUEST ANALYSIS\n\nINPUT:\n- Title: {title}\n- Description: {body}\n- Code Changes: {diff_excerpt}\n\nOUTPUT REQUIREMENTS:\n\nTechnical Summary:\n□ What was changed (files, functions, logic)\n□ How it was implemented\n□ Technical impact/scope\n□ 2-3 sentences maximum\n\nMarketing Summary:\n□ User-facing benefits\n□ Business value\n□ Problem solved\n□ 1-2 sentences maximum\n\nRESPONSE FORMAT:\n\x7b\x7b\"technical\": \"your technical summary\", \"marketing\": \"your marketing summary\"\x7d\x7d\n\nResponse:"

/-- Embeds `get_conversational_prompt` (evals/prompt_variations.py): the raw template text, with the four named placeholders. -/
def get_conversational_prompt : String :=
  "Hey! I need you to help me explain this pull request to different audiences.\n\nHere's what happened:\n- PR Title: {title}\n- What they said: {body}\n- What actually changed: {diff_excerpt}\n\nCan you help me write two explanations?\n\n1. For the tech team - what exactly changed in the code?\n2. For everyone else - why should they care?\n\nKeep it short and sweet. Just give me back:\n\x7b\x7b\"technical\": \"explanation for developers\", \"marketing\": \"explanation for everyone else\"\x7d\x7d"

/-- Embeds `get_bullet_points_prompt` (evals/prompt_variations.py): the raw template text, with the four named placeholders. -/
def get_bullet_points_prompt : String :=
  "Summarize this PR in bullet points:\n\nPR: {title}\nDescription: {body}\nChanges: {diff_excerpt}\n\nTechnical Summary (bullet points):\n• What files/components were modified\n• What functionality was added/changed\n• Any architectural or design changes\n\nMarketing Summary (bullet points):\n• User benefits or improvements\n• Business value\n• Problem solved\n\nConvert to JSON format: \x7b\x7b\"technical\": \"• point 1 • point 2 • point 3\", \"marketing\": \"• benefit 1 • benefit 2\"\x7d\x7d"

/-- Embeds `get_prompt_variations` (evals/prompt_variations.py lines 6-17):
the fixed registry of prompt-version names, in dict insertion order. -/
def get_prompt_variations : List (String × String) :=
  [("default", get_default_prompt),
   ("concise", get_concise_prompt),
   ("detailed", get_detailed_prompt),
   ("user_focused", get_user_focused_prompt),
   ("technical_focused", get_technical_focused_prompt),
   ("structured", get_structured_prompt),
   ("conversational", get_conversational_prompt),
   ("bullet_points", get_bullet_points_prompt)]

/-- The registered prompt-version names, in registry order. -/
def promptNames : List String := get_prompt_variations.map Prod.fst

/-- The error message raised by `get_prompt_by_name` for an unregistered
name, listing the available names. -/
def unknownPromptMsg (name : String) : String :=
  "Unknown prompt variation: " ++ name ++ ". Available: " ++
    pyListRepr promptNames

/-- Embeds `get_prompt_by_name` (evals/prompt_variations.py lines 266-273):
lookup in the registry, raising (modelled as `Except.error`) with the
available names when the name is unregistered. -/
def get_prompt_by_name (name : String) : Except String String :=
  match get_prompt_variations.lookup name with
  | some t => Except.ok t
  | none => Except.error (unknownPromptMsg name)

/-- Substitutes one format field name of `str.format` as called by
`format_prompt`: the four keyword arguments of the call. -/
def formatField (title body diff_excerpt : String) (max_diff_length : Nat) :
    List Char → List Char
  | name =>
    if name = "title".data then title.data
    else if name = "body".data then body.data
    else if name = "diff_excerpt".data then diff_excerpt.data
    else if name = "max_diff_length".data then (toString max_diff_length).data
    else name

/-- Scan of Python `template.format(...)`: doubled braces become literal
braces, `{name}` is replaced by the corresponding field (substituted text
is not rescanned); `fuel` is instantiated with the template length. -/
def pyFormatAux (title body diff_excerpt : String) (max_diff_length : Nat) :
    Nat → List Char → List Char
  | _, [] => []
  | 0, _ :: _ => []
  | fuel + 1, c :: rest =>
    if c = lbrace then
      match rest with
      | c2 :: rest2 =>
        if c2 = lbrace then
          lbrace :: pyFormatAux title body diff_excerpt max_diff_length fuel rest2
        else
          let name := rest.takeWhile (fun ch => ch ≠ rbrace)
          let rest3 := List.drop (name.length + 1) rest
          formatField title body diff_excerpt max_diff_length name ++
            pyFormatAux title body diff_excerpt max_diff_length fuel rest3
      | [] => []
    else if c = rbrace then
      match rest with
      | c2 :: rest2 =>
        if c2 = rbrace then
          rbrace :: pyFormatAux title body diff_excerpt max_diff_length fuel rest2
        else c :: pyFormatAux title body diff_excerpt max_diff_length fuel rest
      | [] => []
    else c :: pyFormatAux title body diff_excerpt max_diff_length fuel rest

/-- Embeds the PR dict fields `generate_summaries_with_prompt` reads. -/
structure PRData where
  number : Int
  title : String
  body : String

/-- Embeds `format_prompt` (evals/prompt_variations.py lines 197-209). -/
def format_prompt (prompt_template : String) (pr : PRData)
    (diff_excerpt : String) (max_diff_length : Nat) : String :=
  String.mk (pyFormatAux pr.title pr.body diff_excerpt max_diff_length
    prompt_template.data.length prompt_template.data)

/-- A Python value as returned by `json.loads`: enough structure to model
the parse result and the `in` membership test the source applies to it. -/
inductive PyValue where
  | pstr (s : String)
  | pint (n : Int)
  | pbool (b : Bool)
  | pnone
  | plist (xs : List PyValue)
  | pdict (fields : List (String × PyValue))

/-- Python `needle in v` for a string needle: key membership for dicts,
element equality for lists, substring test for strings; a `TypeError`
(modelled as `none`) for the other types. -/
def pyInValue (needle : String) : PyValue → Option Bool
  | PyValue.pstr s => some (pyContains s needle)
  | PyValue.plist xs =>
    some (xs.any (fun v =>
      match v with
      | PyValue.pstr s => s = needle
      | _ => false))
  | PyValue.pdict fields => some (fields.any (fun kv => kv.1 = needle))
  | PyValue.pint _ => none
  | PyValue.pbool _ => none
  | PyValue.pnone => none

/-- The completion response's message: `content` is `none` when the
attribute is `None`. -/
structure PyMessage where
  content : Option String

/-- One element of the response's `choices`: `message` is `none` when the
choice has no `message` attribute. -/
structure PyChoice where
  message : Option PyMessage

/-- The completion response object: `choices` is `none` when the response
has no `choices` attribute. -/
structure PyResponse where
  choices : Option (List PyChoice)

/-- What one call of the completion client does: either raises (network or
any other exception) or returns a response object. -/
inductive CompletionOutcome where
  | raises
  | returns (resp : PyResponse)

/-- The deterministic fallback result of `generate_summaries_with_prompt`:
the PR's title and the fixed marketing sentence. -/
def fallbackSummaries (pr : PRData) : PyValue :=
  PyValue.pdict
    [("technical", PyValue.pstr pr.title),
     ("marketing", PyValue.pstr "Improvements and updates")]

/-- Embeds the content salvage in `generate_summaries_with_prompt`
(evals/evaluation.py lines 74-85): strip, then if the content does not
start with a brace, slice from the first brace to the last closing brace
when both exist. -/
def preprocessContent (content : String) : String :=
  let t := pyStrip content
  if t.data.head? = some lbrace then t
  else
    match findIdx lbrace t.data, rfindIdx rbrace t.data with
    | some s, some e =>
      String.mk (List.take (e + 1 - s) (List.drop s t.data))
    | _, _ => t

/-- Embeds the exception-protected region of
`generate_summaries_with_prompt` (evals/evaluation.py lines 42-124):
validate the response shape, salvage and parse the content, require both
keys; every failure path returns the deterministic fallback.  `parseJson`
models `json.loads`, returning `none` for a parse error. -/
def processCompletion (parseJson : String → Option PyValue) (pr : PRData)
    (outcome : CompletionOutcome) : PyValue :=
  match outcome with
  | CompletionOutcome.raises => fallbackSummaries pr
  | CompletionOutcome.returns resp =>
    match resp.choices with
    | none => fallbackSummaries pr
    | some [] => fallbackSummaries pr
    | some (first_choice :: _) =>
      match first_choice.message with
      | none => fallbackSummaries pr
      | some message =>
        match message.content with
        | none => fallbackSummaries pr
        | some response_content =>
          if response_content = "" then fallbackSummaries pr
          else
            match parseJson (preprocessContent response_content) with
            | none => fallbackSummaries pr
            | some summaries =>
              match pyInValue "technical" summaries,
                  pyInValue "marketing" summaries with
              | some true, some true => summaries
              | _, _ => fallbackSummaries pr

/-- Embeds `generate_summaries_with_prompt` (evals/evaluation.py lines
25-124): template lookup and prompt rendering happen before the protected
region, so an unregistered name propagates as an error; `completion` models
the client call, mapping the rendered prompt to its outcome. -/
def generate_summaries_with_prompt (parseJson : String → Option PyValue)
    (completion : String → CompletionOutcome) (pr : PRData) (diff : String)
    (max_diff_length : Nat) (prompt_version : String) :
    Except String PyValue :=
  match get_prompt_by_name prompt_version with
  | Except.error e => Except.error e
  | Except.ok prompt_template =>
    let diff_excerpt := String.mk (diff.data.take max_diff_length)
    let prompt := format_prompt prompt_template pr diff_excerpt max_diff_length
    Except.ok (processCompletion parseJson pr (completion prompt))

/-- Written from the claim: the completion stage went wrong — the call
raised, the response has no or empty choices, the choice has no message,
the content is missing or empty, the salvaged content fails to parse, or
the parsed value lacks one of the two required keys. -/
def MalformedResponse (parseJson : String → Option PyValue)
    (outcome : CompletionOutcome) : Prop :=
  match outcome with
  | CompletionOutcome.raises => True
  | CompletionOutcome.returns resp =>
    match resp.choices with
    | none => True
    | some [] => True
    | some (first_choice :: _) =>
      match first_choice.message with
      | none => True
      | some message =>
        match message.content with
        | none => True
        | some response_content =>
          response_content = "" ∨
          match parseJson (preprocessContent response_content) with
          | none => True
          | some summaries =>
            ¬ (pyInValue "technical" summaries = some true ∧
               pyInValue "marketing" summaries = some true)
/-- A JSON value, as written by `json.dump` and read by `json.load` for the
dataset file. -/
inductive JValue where
  | jnull
  | jstr (s : String)
  | jint (n : Int)
  | jarr (xs : List JValue)
  | jobj (fields : List (String × JValue))

/-- Serialization of an optional string field by `asdict`. -/
def joptStr : Option String → JValue
  | none => JValue.jnull
  | some s => JValue.jstr s

/-- Embeds `dataclasses.asdict` on a `PRTestCase`: a flat object with the
twelve fields in declaration order. -/
def asdictTestCase (tc : PRTestCase) : JValue :=
  JValue.jobj
    [("id", JValue.jstr tc.id),
     ("pr_number", JValue.jint tc.pr_number),
     ("title", JValue.jstr tc.title),
     ("body", JValue.jstr tc.body),
     ("diff", JValue.jstr tc.diff),
     ("author", JValue.jstr tc.author),
     ("repo", JValue.jstr tc.repo),
     ("labels", JValue.jarr (tc.labels.map JValue.jstr)),
     ("expected_technical", joptStr tc.expected_technical),
     ("expected_marketing", joptStr tc.expected_marketing),
     ("difficulty", JValue.jstr tc.difficulty),
     ("category", JValue.jstr tc.category)]

/-- Key lookup in a JSON object's field list. -/
def jLookup (fields : List (String × JValue)) (k : String) : Option JValue :=
  List.lookup k fields

/-- Decode a required string field. -/
def getStr (fields : List (String × JValue)) (k : String) : Option String :=
  match jLookup fields k with
  | some (JValue.jstr s) => some s
  | _ => none

/-- Decode a required integer field. -/
def getInt (fields : List (String × JValue)) (k : String) : Option Int :=
  match jLookup fields k with
  | some (JValue.jint n) => some n
  | _ => none

/-- Decode a string field with a dataclass default for an absent key. -/
def getStrD (fields : List (String × JValue)) (k dflt : String) :
    Option String :=
  match jLookup fields k with
  | some (JValue.jstr s) => some s
  | none => some dflt
  | _ => none

/-- Decode one value of an optional string field (`null` or a string). -/
def decodeOptStr : JValue → Option (Option String)
  | JValue.jnull => some none
  | JValue.jstr s => some (some s)
  | _ => none

/-- Decode an optional string field; an absent key takes the dataclass
default `None`. -/
def getOptStr (fields : List (String × JValue)) (k : String) :
    Option (Option String) :=
  match jLookup fields k with
  | none => some none
  | some v => decodeOptStr v

/-- Decode a list of strings. -/
def decodeStrList : List JValue → Option (List String)
  | [] => some []
  | JValue.jstr s :: rest => (decodeStrList rest).map (fun l => s :: l)
  | _ => none

/-- Decode the `labels` field. -/
def getStrList (fields : List (String × JValue)) (k : String) :
    Option (List String) :=
  match jLookup fields k with
  | some (JValue.jarr xs) => decodeStrList xs
  | _ => none

/-- Embeds `PRTestCase(**tc_data)` as performed by
`TestDatasetBuilder.load_dataset`: rebuild a test case from one JSON
record, with the dataclass defaults for absent optional fields. -/
def testCaseFromDict : JValue → Option PRTestCase
  | JValue.jobj fields => do
    let id ← getStr fields "id"
    let pr_number ← getInt fields "pr_number"
    let title ← getStr fields "title"
    let body ← getStr fields "body"
    let diff ← getStr fields "diff"
    let author ← getStr fields "author"
    let repo ← getStr fields "repo"
    let labels ← getStrList fields "labels"
    let expected_technical ← getOptStr fields "expected_technical"
    let expected_marketing ← getOptStr fields "expected_marketing"
    let difficulty ← getStrD fields "difficulty" "medium"
    let category ← getStrD fields "category" "general"
    pure { id := id, pr_number := pr_number, title := title, body := body,
           diff := diff, author := author, repo := repo, labels := labels,
           expected_technical := expected_technical,
           expected_marketing := expected_marketing,
           difficulty := difficulty, category := category }
  | _ => none

/-- Embeds `TestDatasetBuilder.save_dataset` (evals/evaluation.py lines
881-891): the persisted JSON document with a creation timestamp and one
record per test case. -/
def save_dataset (created_at : String) (test_cases : List PRTestCase) :
    JValue :=
  JValue.jobj
    [("created_at", JValue.jstr created_at),
     ("test_cases", JValue.jarr (test_cases.map asdictTestCase))]

/-- Decode the list of test-case records, failing on the first bad one. -/
def decodeTestCases : List JValue → Option (List PRTestCase)
  | [] => some []
  | v :: rest =>
    match testCaseFromDict v with
    | some tc => (decodeTestCases rest).map (fun l => tc :: l)
    | none => none

/-- Embeds `TestDatasetBuilder.load_dataset` (evals/evaluation.py lines
893-904): read the `test_cases` array and rebuild each record. -/
def load_dataset (data : JValue) : Option (List PRTestCase) :=
  match data with
  | JValue.jobj fields =>
    match jLookup fields "test_cases" with
    | some (JValue.jarr xs) => decodeTestCases xs
    | _ => none
  | _ => none

/-- The metric fields of one evaluation result that `generate_report`
reads. -/
structure MetricsRec where
  technical_length : ℚ
  marketing_length : ℚ
  technical_readability_score : ℚ
  marketing_readability_score : ℚ
  keyword_coverage : ℚ
  evaluation_time : ℚ

/-- One record of `results["results"]` as read by `generate_report`. -/
structure ResultRec where
  test_case_id : String
  prompt_version : String
  category : String
  metrics : MetricsRec

/-- The evaluation-run structure passed to `generate_report`. -/
structure RunResults where
  timestamp : String
  test_cases_count : Nat
  prompt_versions : List String
  results : List ResultRec

/-- `statistics.mean`: raises (modelled as `none`) on an empty sample. -/
def meanQ (xs : List ℚ) : Option ℚ :=
  if xs.isEmpty then none else some (xs.sum / (xs.length : ℚ))

/-- Python `str.title()`: each cased character starting a run of cased
characters is uppercased, the rest lowercased. -/
def pyTitleAux : Bool → List Char → List Char
  | _, [] => []
  | prevCased, c :: rest =>
    if c.isAlpha then
      (if prevCased then c.toLower else c.toUpper) :: pyTitleAux true rest
    else c :: pyTitleAux false rest

/-- Python `str.title()` on strings. -/
def pyTitle (s : String) : String := String.mk (pyTitleAux false s.data)

/-- Embeds the per-version statistics block of
`EvaluationRunner.generate_report` (evals/evaluation.py lines 669-707):
a version with no results contributes nothing, otherwise four means over
its results.  Decimal formatting of the numbers is abstracted by
`toString`. -/
def versionSection (results : List ResultRec) (prompt_version : String) :
    Option String :=
  let version_results :=
    results.filter (fun r => r.prompt_version == prompt_version)
  if version_results.isEmpty then some ""
  else do
    let avg_tech_length ←
      meanQ (version_results.map (fun r => r.metrics.technical_length))
    let avg_marketing_length ←
      meanQ (version_results.map (fun r => r.metrics.marketing_length))
    let avg_evaluation_time ←
      meanQ (version_results.map (fun r => r.metrics.evaluation_time))
    let avg_readability ←
      meanQ (version_results.map (fun r =>
        (r.metrics.technical_readability_score +
          r.metrics.marketing_readability_score) / 2))
    pure ("\n### Prompt Version: " ++ prompt_version ++
      "\n\n- **Average Technical Length:** " ++ toString avg_tech_length ++
      " characters\n- **Average Marketing Length:** " ++
      toString avg_marketing_length ++
      " characters\n- **Average Generation Time:** " ++
      toString avg_evaluation_time ++
      " seconds\n- **Average Readability Score:** " ++
      toString avg_readability ++ "\n- **Test Cases Processed:** " ++
      toString version_results.length ++ "\n\n")

/-- All per-version statistics blocks, in the run's version order. -/
def versionSections (results : List ResultRec) :
    List String → Option String
  | [] => some ""
  | v :: vs => do
    let s ← versionSection results v
    let rest ← versionSections results vs
    pure (s ++ rest)

/-- Embeds the per-(category, version) keyword-coverage line of
`generate_report` (evals/evaluation.py lines 724-735): an empty subset
contributes nothing. -/
def categoryVersionLine (category_results : List ResultRec)
    (prompt_version : String) : Option String :=
  let version_category_results :=
    category_results.filter (fun r => r.prompt_version == prompt_version)
  if version_category_results.isEmpty then some ""
  else do
    let avg_keyword_coverage ←
      meanQ (version_category_results.map
        (fun r => r.metrics.keyword_coverage))
    pure ("- **" ++ prompt_version ++ ":** " ++
      toString avg_keyword_coverage ++ " keyword coverage\n")

/-- All keyword-coverage lines of one category block. -/
def categoryVersionLines (category_results : List ResultRec) :
    List String → Option String
  | [] => some ""
  | v :: vs => do
    let s ← categoryVersionLine category_results v
    let rest ← categoryVersionLines category_results vs
    pure (s ++ rest)

/-- One category block of the report (evals/evaluation.py lines 715-735). -/
def categorySection (results : List ResultRec)
    (prompt_versions : List String) (category : String) : Option String := do
  let category_results := results.filter (fun r => r.category == category)
  let lines ← categoryVersionLines category_results prompt_versions
  pure ("\n### " ++ pyTitle category ++ " (" ++
    toString category_results.length ++ " test cases)\n" ++ lines)

/-- All category blocks of the report. -/
def categorySections (results : List ResultRec)
    (prompt_versions : List String) : List String → Option String
  | [] => some ""
  | c :: cs => do
    let s ← categorySection results prompt_versions c
    let rest ← categorySections results prompt_versions cs
    pure (s ++ rest)

/-- Embeds `EvaluationRunner.generate_report` (evals/evaluation.py lines
655-737): header, per-version statistics, then per-category breakdown;
`statistics.mean` failures propagate as `none` (the distinct observed
categories are modelled as a deduplicated list). -/
def generate_report (run : RunResults) : Option String := do
  let header := "\n# PR Summary Evaluation Report\n\n**Generated:** " ++
    run.timestamp ++ "\n**Test Cases:** " ++ toString run.test_cases_count ++
    "\n**Prompt Versions:** " ++ toString run.prompt_versions.length ++
    "\n\n## Summary Statistics\n\n"
  let vs ← versionSections run.results run.prompt_versions
  let categories := (run.results.map (fun r => r.category)).dedup
  let cs ← categorySections run.results run.prompt_versions categories
  pure (header ++ vs ++ "\n## Results by Category\n" ++ cs)

/-- A concrete evaluation result used by witnesses. -/
def sampleResult : ResultRec :=
  { test_case_id := "pr_1_widgets", prompt_version := "default",
    category := "bugfix",
    metrics :=
      { technical_length := 120, marketing_length := 80,
        technical_readability_score := 1,
        marketing_readability_score := 0.8,
        keyword_coverage := 0.25, evaluation_time := 2 } }

/-- A concrete run with one result for `default` and none for `concise`,
used by witnesses. -/
def sampleRun : RunResults :=
  { timestamp := "2024-01-01T00:00:00", test_cases_count := 1,
    prompt_versions := ["default", "concise"], results := [sampleResult] }

/-- A text with two sentences and thirty whitespace-separated words. -/
def twoSentences30Words : String :=
  String.intercalate " "
    (List.replicate 14 "word" ++ ["word."] ++
     List.replicate 14 "word" ++ ["word."])

/-- A text with one sentence and five whitespace-separated words. -/
def oneSentence5Words : String := "short words in one sentence."

/-- A text with one sentence and one hundred whitespace-separated words. -/
def oneSentence100Words : String :=
  String.intercalate " " (List.replicate 99 "word" ++ ["word."])
theorem countSubAux_singleton (c : Char) (fuel : Nat) :
    ∀ l : List Char, l.length ≤ fuel → countSubAux [c] fuel l = l.count c := by
  induction fuel with
  | zero =>
    intro l h
    have hl : l = [] := List.eq_nil_of_length_eq_zero (Nat.le_zero.mp h)
    subst hl
    simp [countSubAux]
  | succ n ih =>
    intro l h
    cases l with
    | nil => simp [countSubAux]
    | cons a rest =>
      have hr : rest.length ≤ n := by simpa using h
      by_cases hc : c = a
      · subst hc
        simp [countSubAux, List.isPrefixOf, ih rest hr, List.count_cons]
      · simp [countSubAux, List.isPrefixOf, hc, ih rest hr, List.count_cons,
          Ne.symm hc]

/-- C2: difficulty classification is exactly the stated pure function of
the newline count and the `diff --git` marker count of the diff. -/
theorem difficulty_matches_counts (diff : String) :
    infer_difficulty diff =
      difficultySpec (countChar '\n' diff) (pyCount diff "diff --git") := by
  have h : pyCount diff "\n" = countChar '\n' diff :=
    countSubAux_singleton '\n' diff.data.length diff.data le_rfl
  simp only [infer_difficulty, difficultySpec, h]
  split_ifs with h1 h2 h3 h4 h5 <;>
    simp_all [Bool.or_eq_true, decide_eq_true_eq]

/-- C3: category classification checks labels (exact lowercased vocabulary
match) before scanning the lowercased title for keywords, in the fixed
order bugfix, feature, refactor, docs, defaulting to `general`; in
particular a PR titled `Fix bug in refactor of auth` with no labels is a
`bugfix`. -/
theorem category_label_precedence :
    (∀ (title : String) (labels : List String),
        infer_category title labels = categorySpec title labels)
    ∧ infer_category "Fix bug in refactor of auth" [] = "bugfix" := by
  constructor
  · intro title labels
    simp only [infer_category, categorySpec, labelCategory, titleCategory]
    split_ifs <;> rfl
  · decide
/-- C4 counterexample: on the empty summary the code returns 0 while the
claim's formula (avg = 0 < 10) assigns 0.8. -/
theorem readability_claim_counterexample :
    calculate_readability "" = 0 ∧ readabilitySpec "" = 0.8 := by
  refine ⟨rfl, ?_⟩
  have h1 : countChar '.' "" + countChar '!' "" + countChar '?' "" = 0 := by
    decide
  have h2 : (pyWords "").length = 0 := by decide
  simp only [readabilitySpec, h1, h2]
  norm_num

set_option maxRecDepth 40000 in
/-- C4 amended: for every nonempty summary text the readability score is
the stated pure function of the '.'/'!'/'?' count (taken as 1 when zero)
and the whitespace word count — 1.0 for avg in [10, 25], 0.8 below 10,
max(0.2, 1 - (avg - 25)/50) above 25; the empty text instead scores 0.0.
The three stated instances (30 words in 2 sentences, 5 words in 1
sentence, 100 words in 1 sentence) score 1.0, 0.8 and 0.2. -/
theorem readability_amended :
    (∀ text : String, text ≠ "" →
        calculate_readability text = readabilitySpec text)
    ∧ calculate_readability twoSentences30Words = 1
    ∧ calculate_readability oneSentence5Words = 0.8
    ∧ calculate_readability oneSentence100Words = 0.2 := by
  refine ⟨fun text h => ?_, ?_, ?_, ?_⟩
  · simp only [calculate_readability, readabilitySpec, if_neg h]
  · have hne : twoSentences30Words ≠ "" := by decide
    have h1 : countChar '.' twoSentences30Words +
        countChar '!' twoSentences30Words +
        countChar '?' twoSentences30Words = 2 := by decide
    have h2 : (pyWords twoSentences30Words).length = 30 := by decide
    simp only [calculate_readability, if_neg hne, h1, h2]
    norm_num
  · have hne : oneSentence5Words ≠ "" := by decide
    have h1 : countChar '.' oneSentence5Words +
        countChar '!' oneSentence5Words +
        countChar '?' oneSentence5Words = 1 := by decide
    have h2 : (pyWords oneSentence5Words).length = 5 := by decide
    simp only [calculate_readability, if_neg hne, h1, h2]
    norm_num
  · have hne : oneSentence100Words ≠ "" := by decide
    have h1 : countChar '.' oneSentence100Words +
        countChar '!' oneSentence100Words +
        countChar '?' oneSentence100Words = 1 := by decide
    have h2 : (pyWords oneSentence100Words).length = 100 := by decide
    simp only [calculate_readability, if_neg hne, h1, h2]
    norm_num [max_def]

/-- C4 witness: the amended equation applied to a concrete nonempty text. -/
theorem readability_amended_witness :
    calculate_readability "a a a a a." = readabilitySpec "a a a a a." :=
  readability_amended.1 "a a a a a." (by decide)

/-- C9: the empty summary scores 0.0, not the 0.8 that the avg < 10 branch
would otherwise assign. -/
theorem readability_empty_string :
    calculate_readability "" = 0 ∧ calculate_readability "" ≠ 0.8 := by
  refine ⟨rfl, ?_⟩
  have h : calculate_readability "" = 0 := rfl
  rw [h]
  norm_num

/-- C5: factual consistency starts at 1.0, drops 0.2 when the lowercased
summary contains `python` while no single character of the diff string
ends with `.py` (the per-character check, as the claim states it), drops
0.1 when the lowercased summary contains `add` while the diff has more
`---` than `+++` occurrences, and is floored at 0. -/
theorem factual_consistency_matches_spec (summary : String)
    (tc : PRTestCase) :
    check_factual_consistency summary tc =
      factualConsistencySpec summary tc := by
  simp only [check_factual_consistency, factualConsistencySpec]
  by_cases h1 : (pyContains (pyLower summary) "python"
      && !(tc.diff.data.any (fun f => List.isSuffixOf ".py".data [f]))) = true
  all_goals by_cases h2 : (pyContains (pyLower summary) "add"
      && decide (pyCount tc.diff "---" > pyCount tc.diff "+++")) = true
  all_goals simp [h1, h2]
/-- C6 counterexample: for the diff `+++ b/a.PY` the code extracts the
extension token `PY` verbatim, so the summary `py` scores 0, while the
claim's lowercased-token computation scores 1. -/
theorem diff_relevance_claim_counterexample :
    calculate_diff_relevance "py" "+++ b/a.PY" = 0 ∧
      diffRelevanceClaim "py" "+++ b/a.PY" = 1 := by
  have hne : ("+++ b/a.PY" : String) ≠ "" := by decide
  constructor
  · have h1 : diffTokens "+++ b/a.PY" = ["PY"] := by decide
    have h2 : ((["PY"] : List String).filter
        (fun t => pyContains (pyLower "py") t)).length = 0 := by decide
    simp only [calculate_diff_relevance, if_neg hne, h1, h2]
    norm_num
  · have h1 : diffTokensLower "+++ b/a.PY" = ["py"] := by decide
    have h2 : ((["py"] : List String).filter
        (fun t => pyContains (pyLower "py") t)).length = 1 := by decide
    simp only [diffRelevanceClaim, if_neg hne, h1, h2]
    norm_num

/-- C6 amended: an empty diff scores 0 (taking precedence over the
no-tokens case); a nonempty diff with no extracted tokens scores 0.5;
otherwise the score is the fraction of the extracted tokens — extension
tokens taken verbatim, `def`/`function`/`class` identifiers lowercased —
that occur as substrings of the lowercased summary. -/
theorem diff_relevance_amended (summary diff : String) :
    (diff = "" → calculate_diff_relevance summary diff = 0)
    ∧ (diff ≠ "" → diffTokens diff = [] →
        calculate_diff_relevance summary diff = 0.5)
    ∧ (diff ≠ "" → diffTokens diff ≠ [] →
        calculate_diff_relevance summary diff =
          (((diffTokens diff).filter
              (fun t => pyContains (pyLower summary) t)).length : ℚ) /
            ((diffTokens diff).length : ℚ)) := by
  refine ⟨fun h => ?_, fun h h2 => ?_, fun h h2 => ?_⟩
  · simp [calculate_diff_relevance, h]
  · simp [calculate_diff_relevance, if_neg h, h2]
  · have h3 : (diffTokens diff).isEmpty = false := by
      cases h4 : diffTokens diff with
      | nil => exact absurd h4 h2
      | cons a l => rfl
    simp [calculate_diff_relevance, if_neg h, h3]

/-- C6 witness: the amended fraction clause applied at a concrete diff. -/
theorem diff_relevance_amended_witness :
    calculate_diff_relevance "py" "+++ b/a.PY" =
      (((diffTokens "+++ b/a.PY").filter
          (fun t => pyContains (pyLower "py") t)).length : ℚ) /
        ((diffTokens "+++ b/a.PY").length : ℚ) :=
  (diff_relevance_amended "py" "+++ b/a.PY").2.2 (by decide) (by decide)
theorem processCompletion_fallback (parseJson : String → Option PyValue)
    (pr : PRData) (outcome : CompletionOutcome)
    (h : MalformedResponse parseJson outcome) :
    processCompletion parseJson pr outcome = fallbackSummaries pr := by
  cases outcome with
  | raises => rfl
  | returns resp =>
    obtain ⟨choices⟩ := resp
    cases choices with
    | none => rfl
    | some l =>
      cases l with
      | nil => rfl
      | cons fc rest =>
        obtain ⟨message⟩ := fc
        cases message with
        | none => rfl
        | some msg =>
          obtain ⟨content⟩ := msg
          cases content with
          | none => rfl
          | some response_content =>
            have h2 : response_content = "" ∨
                (match parseJson (preprocessContent response_content) with
                 | none => True
                 | some summaries =>
                   ¬ (pyInValue "technical" summaries = some true ∧
                      pyInValue "marketing" summaries = some true)) := h
            show (if response_content = "" then fallbackSummaries pr
              else
                match parseJson (preprocessContent response_content) with
                | none => fallbackSummaries pr
                | some summaries =>
                  match pyInValue "technical" summaries,
                      pyInValue "marketing" summaries with
                  | some true, some true => summaries
                  | _, _ => fallbackSummaries pr) = fallbackSummaries pr
            by_cases he : response_content = ""
            · rw [if_pos he]
            · rw [if_neg he]
              rcases h2 with h2 | h2
              · exact absurd h2 he
              · cases hp : parseJson (preprocessContent response_content) with
                | none => rfl
                | some v =>
                  rw [hp] at h2
                  have h3 : ¬ (pyInValue "technical" v = some true ∧
                      pyInValue "marketing" v = some true) := h2
                  show (match pyInValue "technical" v,
                      pyInValue "marketing" v with
                    | some true, some true => v
                    | _, _ => fallbackSummaries pr) = fallbackSummaries pr
                  cases ht : pyInValue "technical" v with
                  | none => rfl
                  | some bt =>
                    cases hmk : pyInValue "marketing" v with
                    | none => cases bt <;> rfl
                    | some bm =>
                      cases bt with
                      | false => cases bm <;> rfl
                      | true =>
                        cases bm with
                        | false => rfl
                        | true => exact absurd ⟨ht, hmk⟩ h3

/-- C1: whenever the prompt version is registered and the completion stage
is malformed in any of the claim's senses (the call raises, the response
has no choices, the message content is missing or empty, the content fails
to parse as JSON, or the parsed value lacks the `technical` or `marketing`
key), `generate_summaries_with_prompt` returns exactly the deterministic
fallback — the PR's title and `Improvements and updates` — and no error. -/
theorem generate_fallback_on_malformed (parseJson : String → Option PyValue)
    (completion : String → CompletionOutcome) (pr : PRData) (diff : String)
    (max_diff_length : Nat) (prompt_version prompt_template : String)
    (hv : get_prompt_by_name prompt_version = Except.ok prompt_template)
    (hm : ∀ prompt, MalformedResponse parseJson (completion prompt)) :
    generate_summaries_with_prompt parseJson completion pr diff
        max_diff_length prompt_version =
      Except.ok (fallbackSummaries pr) := by
  unfold generate_summaries_with_prompt
  rw [hv]
  exact congrArg Except.ok (processCompletion_fallback parseJson pr _ (hm _))

/-- C1 witness: a raising completion call with the `default` prompt version
yields exactly the fallback summaries. -/
theorem generate_fallback_malformed_witness :
    generate_summaries_with_prompt (fun _ => none)
        (fun _ => CompletionOutcome.raises)
        { number := 7, title := "Fix crash", body := "b" } "some diff" 20000
        "default" =
      Except.ok (fallbackSummaries
        { number := 7, title := "Fix crash", body := "b" }) :=
  generate_fallback_on_malformed _ _ _ _ _ _ get_default_prompt rfl
    (fun _ => trivial)

theorem assocLookupNone (name : String) :
    ∀ l : List (String × String), name ∉ l.map Prod.fst →
      List.lookup name l = none := by
  intro l
  induction l with
  | nil => intro _; rfl
  | cons p rest ih =>
    intro h
    obtain ⟨k, v⟩ := p
    simp only [List.map_cons, List.mem_cons] at h
    push_neg at h
    have hb : (name == k) = false := beq_eq_false_iff_ne.mpr h.1
    simp [List.lookup, hb, ih h.2]

theorem containsSubAux_append (needle l1 l2 : List Char)
    (h : containsSubAux needle l2 = true) :
    containsSubAux needle (l1 ++ l2) = true := by
  induction l1 with
  | nil => simpa using h
  | cons c rest ih => simp [containsSubAux, ih]

/-- C10: an unregistered prompt version makes
`generate_summaries_with_prompt` fail with the lookup error listing every
registered name, before any completion call — the result is the same error
for every completion behaviour, so no call is observable. -/
theorem generate_unknown_prompt_version (prompt_version : String)
    (h : prompt_version ∉ promptNames) :
    (∀ (parseJson : String → Option PyValue)
        (completion : String → CompletionOutcome) (pr : PRData)
        (diff : String) (max_diff_length : Nat),
        generate_summaries_with_prompt parseJson completion pr diff
            max_diff_length prompt_version =
          Except.error (unknownPromptMsg prompt_version))
    ∧ (∀ (parseJson : String → Option PyValue)
        (completion1 completion2 : String → CompletionOutcome) (pr : PRData)
        (diff : String) (max_diff_length : Nat),
        generate_summaries_with_prompt parseJson completion1 pr diff
            max_diff_length prompt_version =
          generate_summaries_with_prompt parseJson completion2 pr diff
            max_diff_length prompt_version)
    ∧ (∀ n ∈ promptNames,
        pyContains (unknownPromptMsg prompt_version) n = true) := by
  have hl : List.lookup prompt_version get_prompt_variations = none :=
    assocLookupNone prompt_version get_prompt_variations h
  have hg : get_prompt_by_name prompt_version =
      Except.error (unknownPromptMsg prompt_version) := by
    unfold get_prompt_by_name
    rw [hl]
  refine ⟨fun parseJson completion pr diff mdl => ?_,
    fun parseJson c1 c2 pr diff mdl => ?_, fun n hn => ?_⟩
  · unfold generate_summaries_with_prompt
    rw [hg]
  · unfold generate_summaries_with_prompt
    rw [hg]
  · have hrepr : containsSubAux n.data (pyListRepr promptNames).data
        = true := by
      simp only [promptNames, get_prompt_variations, List.map_cons,
        List.map_nil, List.mem_cons, List.not_mem_nil, or_false] at hn
      rcases hn with rfl | rfl | rfl | rfl | rfl | rfl | rfl | rfl <;> decide
    have hdata : (unknownPromptMsg prompt_version).data =
        ("Unknown prompt variation: " ++ prompt_version ++
          ". Available: ").data ++ (pyListRepr promptNames).data := rfl
    show containsSubAux n.data (unknownPromptMsg prompt_version).data = true
    rw [hdata]
    exact containsSubAux_append _ _ _ hrepr

/-- C10 witness: the unregistered name `nope` yields exactly the lookup
error. -/
theorem generate_unknown_prompt_witness :
    generate_summaries_with_prompt (fun _ => none)
        (fun _ => CompletionOutcome.raises)
        { number := 1, title := "t", body := "b" } "" 10 "nope" =
      Except.error (unknownPromptMsg "nope") :=
  (generate_unknown_prompt_version "nope" (by decide)).1 _ _ _ _ _
theorem decodeStrList_roundtrip (ls : List String) :
    decodeStrList (ls.map JValue.jstr) = some ls := by
  induction ls with
  | nil => rfl
  | cons s rest ih => simp [decodeStrList, ih]

theorem decodeOptStr_joptStr (o : Option String) :
    decodeOptStr (joptStr o) = some o := by
  cases o <;> rfl

theorem testCaseFromDict_asdict (tc : PRTestCase) :
    testCaseFromDict (asdictTestCase tc) = some tc := by
  obtain ⟨id, n, title, body, diff, author, repo, labels, et, em, dif, cat⟩
    := tc
  simp [testCaseFromDict, asdictTestCase, getStr, getInt, getStrList,
    getOptStr, getStrD, jLookup, List.lookup, decodeStrList_roundtrip,
    decodeOptStr_joptStr]

theorem decodeTestCases_roundtrip (l : List PRTestCase) :
    decodeTestCases (l.map asdictTestCase) = some l := by
  induction l with
  | nil => rfl
  | cons tc rest ih => simp [decodeTestCases, testCaseFromDict_asdict, ih]

/-- C7: loading a dataset produced by `save_dataset` yields the saved
sequence of test cases field-for-field, in the same order. -/
theorem dataset_save_load_roundtrip (created_at : String)
    (test_cases : List PRTestCase) :
    load_dataset (save_dataset created_at test_cases) = some test_cases := by
  show decodeTestCases (test_cases.map asdictTestCase) = some test_cases
  exact decodeTestCases_roundtrip test_cases
theorem meanQ_isSome_of_ne_nil (xs : List ℚ) (h : xs.isEmpty = false) :
    (meanQ xs).isSome = true := by
  simp [meanQ, h]

theorem versionSection_isSome (results : List ResultRec) (v : String) :
    (versionSection results v).isSome = true := by
  unfold versionSection
  cases hvr : results.filter (fun r => r.prompt_version == v) with
  | nil => rfl
  | cons r rest => simp [meanQ]

theorem versionSections_isSome (results : List ResultRec)
    (vs : List String) : (versionSections results vs).isSome = true := by
  induction vs with
  | nil => rfl
  | cons v rest ih =>
    obtain ⟨s1, h1⟩ :=
      Option.isSome_iff_exists.mp (versionSection_isSome results v)
    obtain ⟨s2, h2⟩ := Option.isSome_iff_exists.mp ih
    simp [versionSections, h1, h2]

theorem categoryVersionLine_isSome (category_results : List ResultRec)
    (v : String) : (categoryVersionLine category_results v).isSome = true := by
  unfold categoryVersionLine
  cases hvr : category_results.filter (fun r => r.prompt_version == v) with
  | nil => rfl
  | cons r rest => simp [meanQ]

theorem categoryVersionLines_isSome (category_results : List ResultRec)
    (vs : List String) :
    (categoryVersionLines category_results vs).isSome = true := by
  induction vs with
  | nil => rfl
  | cons v rest ih =>
    obtain ⟨s1, h1⟩ :=
      Option.isSome_iff_exists.mp (categoryVersionLine_isSome category_results v)
    obtain ⟨s2, h2⟩ := Option.isSome_iff_exists.mp ih
    simp [categoryVersionLines, h1, h2]

theorem categorySection_isSome (results : List ResultRec)
    (prompt_versions : List String) (category : String) :
    (categorySection results prompt_versions category).isSome = true := by
  obtain ⟨s1, h1⟩ := Option.isSome_iff_exists.mp
    (categoryVersionLines_isSome
      (results.filter (fun r => r.category == category)) prompt_versions)
  simp [categorySection, h1]

theorem categorySections_isSome (results : List ResultRec)
    (prompt_versions : List String) (cats : List String) :
    (categorySections results prompt_versions cats).isSome = true := by
  induction cats with
  | nil => rfl
  | cons c rest ih =>
    obtain ⟨s1, h1⟩ := Option.isSome_iff_exists.mp
      (categorySection_isSome results prompt_versions c)
    obtain ⟨s2, h2⟩ := Option.isSome_iff_exists.mp ih
    simp [categorySections, h1, h2]

theorem generate_report_isSome (run : RunResults) :
    (generate_report run).isSome = true := by
  obtain ⟨s1, h1⟩ := Option.isSome_iff_exists.mp
    (versionSections_isSome run.results run.prompt_versions)
  obtain ⟨s2, h2⟩ := Option.isSome_iff_exists.mp
    (categorySections_isSome run.results run.prompt_versions
      ((run.results.map (fun r => r.category)).dedup))
  simp [generate_report, h1, h2]

/-- C8: `generate_report` never fails with a division (empty-mean) error:
its result is always present; in particular a requested prompt version with
zero matching results contributes an omitted (empty) section, and
per-(category, version) means are computed only for non-empty subsets. -/
theorem report_empty_set_safety (run : RunResults) :
    (generate_report run).isSome = true ∧
      ∀ v, (run.results.filter (fun r => r.prompt_version == v)).isEmpty
          = true → versionSection run.results v = some "" := by
  refine ⟨generate_report_isSome run, fun v hv => ?_⟩
  unfold versionSection
  simp [hv]

/-- C8 witness: on a concrete run that requests `concise` but has no
`concise` results, the report is produced and the `concise` section is
omitted. -/
theorem report_empty_set_safety_witness :
    (generate_report sampleRun).isSome = true ∧
      versionSection sampleRun.results "concise" = some "" :=
  ⟨(report_empty_set_safety sampleRun).1,
   (report_empty_set_safety sampleRun).2 "concise" (by decide)⟩
